import Mathlib

/-!
Shallow embedding of `counterpartylib/lib/micropayments/validate.py`
(the validation engine of a unidirectional micropayment channel) and
proofs about its behaviour.

Python exceptions become an explicit error type `Err`; every fallible
function returns `Except Err α`.  The two injected collaborators — the
ledger dispatcher and the `micropayment_core` script-template library —
are modelled as structures of (possibly fallible) functions, matching
the collaborator contract of the specification: the validator consumes
their outputs and is parametric in their behaviour.
-/

namespace Micropayments

/-- Dynamic (Python-style) values, used to model the dynamically typed
arguments of the primitive validators such as `is_hex`. -/
inductive PyVal where
  | str : String → PyVal
  | int : Int → PyVal
  | boolean : Bool → PyVal
  | listV : List PyVal → PyVal
  | noneV : PyVal

/-- Errors of the validation module.  Constructors mirror the exception
classes of `exceptions.py` where the source raises one; Python `assert`
statements (which all raise a bare `AssertionError`) are tagged by their
raise site; `valueErr` models `ValueError(msg)`; `schemaViolation`
models `jsonschema.ValidationError`; `invalidScript` stands for the
structural-validation failures of the external script library, and
`lookupFailure` for a failed collaborator lookup. -/
inductive Err where
  | invalidString
  | invalidHexData (data : String)
  | assetDoesNotExist (asset : String)
  | invalidScript (s : String)
  | schemaViolation
  | assertDuplicateScript
  | assertSpendHashMismatch
  | assertRevokeHashMismatch
  | assertMessageTypeId
  | valueErr (msg : String)
  | sourceMissmatch (expected found : String)
  | destinationMissmatch (expected found : String)
  | assetMissmatch (expected found : String)
  | invalidSignature (rawtx : String)
  | lookupFailure (s : String)
  deriving DecidableEq, Repr

/-- One character of the class `[0-9a-f]`. -/
def hexCharLower (c : Char) : Bool :=
  decide ('0' ≤ c ∧ c ≤ '9') || decide ('a' ≤ c ∧ c ≤ 'f')

/-- Python semantics of matching a string against `^[0-9a-f]*$` with
`re.match` (or `re.search`, as the `jsonschema` `pattern` keyword does):
`$` also matches just before one trailing newline, so every character
must lie in the class except that the final character may be `\n`. -/
def pyRegexHexMatch (s : String) : Bool :=
  match s.data.reverse with
  | [] => true
  | c :: rest => (hexCharLower c || c == '\n') && rest.all hexCharLower

/-- Embeds `validate.is_string`: succeed exactly on Python strings,
raising `InvalidString` otherwise. -/
def is_string : PyVal → Except Err Unit
  | PyVal.str _ => Except.ok ()
  | _ => Except.error Err.invalidString

/-- Embeds `validate.is_hex`: require a string, then a match of
`^[0-9a-f]*$`, then an even length, raising `InvalidHexData` on the
two latter failures. -/
def is_hex (v : PyVal) : Except Err Unit :=
  (is_string v).bind fun _ =>
    let s := match v with | PyVal.str s => s | _ => ""
    if pyRegexHexMatch s = false then Except.error (Err.invalidHexData s)
    else if s.length % 2 ≠ 0 then Except.error (Err.invalidHexData s)
    else Except.ok ()

/-- Item of `commits_active`: a commit script together with the raw
transaction that settles it on chain. -/
structure ActiveCommit where
  rawtx : String
  script : String
  deriving DecidableEq, Repr

/-- Item of `commits_revoked`: a commit script together with the
disclosed revocation secret. -/
structure RevokedCommit where
  script : String
  revoke_secret : String
  deriving DecidableEq, Repr

/-- The persisted channel state, typed per `_STATE_SCHEMA`: the typing
of the Lean structure captures the required/forbidden-extra-field part
of the schema, and `stateMatchesSchema` below the hex-pattern part. -/
structure StateData where
  asset : String
  deposit_script : String
  commits_requested : List String
  commits_active : List ActiveCommit
  commits_revoked : List RevokedCommit
  deriving DecidableEq, Repr

/-- The pattern constraints of `_STATE_SCHEMA`: every hex-typed field
(`deposit_script`, each requested script, each active `rawtx`/`script`,
each revoked `script`/`revoke_secret`) matches `^[a-f0-9]*$`.  The
schema imposes no even-length requirement. -/
def stateMatchesSchema (s : StateData) : Bool :=
  pyRegexHexMatch s.deposit_script &&
  s.commits_requested.all pyRegexHexMatch &&
  s.commits_active.all (fun a => pyRegexHexMatch a.rawtx && pyRegexHexMatch a.script) &&
  s.commits_revoked.all (fun r => pyRegexHexMatch r.script && pyRegexHexMatch r.revoke_secret)

/-- Embeds `jsonschema.validate(state_data, _STATE_SCHEMA)` as a
check. -/
def checkStateSchema (s : StateData) : Except Err Unit :=
  if stateMatchesSchema s then Except.ok () else Except.error Err.schemaViolation

/-- Result of the ledger's `get_tx_info` call: source address,
destination address, btc amount, fee, and the payload (`""` models an
absent/empty payload, the falsy case of the source). -/
structure TxInfo where
  src : String
  dest : String
  btc : Int
  fee : Int
  data : String
  deriving DecidableEq, Repr

/-- The injected ledger dispatcher (spec §6 ledger capability):
`get_assets`, `get_tx_info`, `unpack` (returning the message type id
and the decoded asset field), and the signature-checking path
(`util.load_tx` over `getrawtransaction` followed by
`bad_signature_count`), abstracted as `badSignatureCount`. -/
structure Dispatcher where
  getAssets : List String
  getTxInfo : String → Except Err TxInfo
  unpack : String → Except Err (Nat × String)
  badSignatureCount : String → Except Err Nat

/-- The injected `micropayment_core` script-template capability
(spec §6): structural validators and accessors for deposit and commit
scripts, `script_address` (script hex and netcode to address), and
`hash160hex`. -/
structure ScriptLib where
  validateDepositScript : String → Except Err Unit
  validateCommitScript : String → Except Err Unit
  getDepositSpendSecretHash : String → Except Err String
  getCommitSpendSecretHash : String → Except Err String
  getCommitRevokeSecretHash : String → Except Err String
  hash160hex : String → Except Err String
  scriptAddress : String → String → Except Err String

/-- Embeds `validate.is_asset` (the argument's string type being
enforced by the Lean type): the asset symbol must appear in the
ledger's registry. -/
def is_asset (d : Dispatcher) (asset : String) : Except Err Unit :=
  if asset ∈ d.getAssets then Except.ok ()
  else Except.error (Err.assetDoesNotExist asset)

/-- The normalized record returned by `is_send_tx`: the queried tx
fields plus the decoded message type id and asset. -/
structure SendTxRecord where
  src : String
  dest : String
  btc : Int
  fee : Int
  data : String
  message_type_id : Nat
  unpacked_asset : String
  deriving DecidableEq, Repr

/-- Embeds `validate.is_send_tx`: query `get_tx_info`, fail with
`ValueError("No data for given transaction!")` on an empty payload,
unpack and assert the send message type, compare the expected source,
destination and asset when supplied, optionally verify signatures, and
return the normalized record. -/
def is_send_tx (d : Dispatcher) (rawtx : String)
    (expected_asset expected_src expected_dest : Option String)
    (validate_signature : Bool) : Except Err SendTxRecord :=
  (d.getTxInfo rawtx).bind fun info =>
  if info.data = "" then Except.error (Err.valueErr "No data for given transaction!")
  else
    (d.unpack info.data).bind fun mu =>
    if mu.1 ≠ 0 then Except.error Err.assertMessageTypeId
    else
      (match expected_src with
       | some es => if es ≠ info.src
           then Except.error (Err.sourceMissmatch es info.src) else Except.ok ()
       | none => Except.ok ()).bind fun _ =>
      (match expected_dest with
       | some ed => if ed ≠ info.dest
           then Except.error (Err.destinationMissmatch ed info.dest) else Except.ok ()
       | none => Except.ok ()).bind fun _ =>
      (match expected_asset with
       | some ea => if ea ≠ mu.2
           then Except.error (Err.assetMissmatch ea mu.2) else Except.ok ()
       | none => Except.ok ()).bind fun _ =>
      (if validate_signature then
         (d.badSignatureCount rawtx).bind fun n =>
         if n ≠ 0 then Except.error (Err.invalidSignature rawtx) else Except.ok ()
       else Except.ok ()).bind fun _ =>
      Except.ok { src := info.src, dest := info.dest, btc := info.btc,
                  fee := info.fee, data := info.data,
                  message_type_id := mu.1, unpacked_asset := mu.2 }

/-- Embeds `validate.is_commit_rawtx`: derive the commit and deposit
addresses under the netcode and delegate to `is_send_tx` with the
deposit address as expected source and the commit address as expected
destination. -/
def is_commit_rawtx (lib : ScriptLib) (d : Dispatcher)
    (commit_rawtx expected_asset expected_deposit_script_hex
     expected_commit_script_hex netcode : String)
    (validate_signature : Bool) : Except Err Unit :=
  (lib.scriptAddress expected_commit_script_hex netcode).bind fun commit_address =>
  (lib.scriptAddress expected_deposit_script_hex netcode).bind fun deposit_address =>
  (is_send_tx d commit_rawtx (some expected_asset) (some deposit_address)
      (some commit_address) validate_signature).bind fun _ =>
  Except.ok ()

/-- The `for revoked in state_data["commits_revoked"]` loop of
`is_state`: structural commit-script check, spend-secret-hash agreement
with the deposit, and `hash160(revoke_secret)` against the script's
embedded revocation hash. -/
def checkRevokedList (lib : ScriptLib) (deposit_spend_hash : String) :
    List RevokedCommit → Except Err Unit
  | [] => Except.ok ()
  | r :: rest =>
      (lib.validateCommitScript r.script).bind fun _ =>
      (lib.getCommitSpendSecretHash r.script).bind fun r_spend_hash =>
      if r_spend_hash ≠ deposit_spend_hash then Except.error Err.assertSpendHashMismatch
      else
        (lib.getCommitRevokeSecretHash r.script).bind fun revoke_hash =>
        (lib.hash160hex r.revoke_secret).bind fun secret_hash =>
        if revoke_hash ≠ secret_hash then Except.error Err.assertRevokeHashMismatch
        else checkRevokedList lib deposit_spend_hash rest

/-- The `for active in state_data["commits_active"]` loop of
`is_state`: structural commit-script check, spend-secret-hash agreement
with the deposit, and the ledger cross-check of the paired `rawtx` via
`is_commit_rawtx` (signature verification off). -/
def checkActiveList (lib : ScriptLib) (d : Dispatcher)
    (asset deposit_script_hex netcode deposit_spend_hash : String) :
    List ActiveCommit → Except Err Unit
  | [] => Except.ok ()
  | a :: rest =>
      (lib.validateCommitScript a.script).bind fun _ =>
      (lib.getCommitSpendSecretHash a.script).bind fun a_spend_hash =>
      if a_spend_hash ≠ deposit_spend_hash then Except.error Err.assertSpendHashMismatch
      else
        (is_commit_rawtx lib d a.rawtx asset deposit_script_hex a.script
            netcode false).bind fun _ =>
        checkActiveList lib d asset deposit_script_hex netcode deposit_spend_hash rest

/-- The scripts of `commits_active` and `commits_revoked`, in order, as
collected by `is_state` for its uniqueness assertion. -/
def combinedScripts (s : StateData) : List String :=
  s.commits_active.map ActiveCommit.script ++ s.commits_revoked.map RevokedCommit.script

/-- Embeds `validate.is_state`: schema check, uniqueness of commit
scripts (a Python `assert` over `len(list) == len(set(list))`, i.e. no
duplicates), asset existence, the deposit-script block (address
derivation, spend-secret-hash accessor, structural validation — in the
source's order), then the revoked and active loops. -/
def is_state (lib : ScriptLib) (d : Dispatcher) (s : StateData)
    (netcode : String) : Except Err Unit :=
  (checkStateSchema s).bind fun _ =>
  (if (combinedScripts s).Nodup then Except.ok ()
   else Except.error Err.assertDuplicateScript).bind fun _ =>
  (is_asset d s.asset).bind fun _ =>
  (lib.scriptAddress s.deposit_script netcode).bind fun _deposit_address =>
  (lib.getDepositSpendSecretHash s.deposit_script).bind fun deposit_spend_hash =>
  (lib.validateDepositScript s.deposit_script).bind fun _ =>
  (checkRevokedList lib deposit_spend_hash s.commits_revoked).bind fun _ =>
  checkActiveList lib d s.asset s.deposit_script netcode deposit_spend_hash
    s.commits_active

/-- The deposit-script block of `is_state` (lines 224–227 of the
source), packaged for reasoning: derive the deposit address, read the
deposit spend-secret hash, structurally validate the deposit script,
and return the hash. -/
def depositCheck (lib : ScriptLib) (deposit_script_hex netcode : String) :
    Except Err String :=
  (lib.scriptAddress deposit_script_hex netcode).bind fun _ =>
  (lib.getDepositSpendSecretHash deposit_script_hex).bind fun h =>
  (lib.validateDepositScript deposit_script_hex).bind fun _ =>
  Except.ok h

/-- A revoked entry that passes every check of the revoked loop: the
script validates structurally, its spend-secret hash equals the
deposit's, and its embedded revocation hash equals the hash of the
disclosed revoke secret. -/
def RevokedOk (lib : ScriptLib) (h : String) (r : RevokedCommit) : Prop :=
  lib.validateCommitScript r.script = Except.ok () ∧
  lib.getCommitSpendSecretHash r.script = Except.ok h ∧
  ∃ rh, lib.getCommitRevokeSecretHash r.script = Except.ok rh ∧
    lib.hash160hex r.revoke_secret = Except.ok rh

/-- A revoked entry whose script and accessors all resolve (the entry
reaches the revocation-hash comparison), with no constraint on whether
that comparison succeeds. -/
def RevokedChecked (lib : ScriptLib) (h : String) (r : RevokedCommit) : Prop :=
  lib.validateCommitScript r.script = Except.ok () ∧
  lib.getCommitSpendSecretHash r.script = Except.ok h ∧
  ∃ rh sh, lib.getCommitRevokeSecretHash r.script = Except.ok rh ∧
    lib.hash160hex r.revoke_secret = Except.ok sh

/-- A revoked entry whose disclosed secret hashes to a value different
from the script's embedded revocation hash. -/
def RevokedBad (lib : ScriptLib) (r : RevokedCommit) : Prop :=
  ∃ rh sh, lib.getCommitRevokeSecretHash r.script = Except.ok rh ∧
    lib.hash160hex r.revoke_secret = Except.ok sh ∧ rh ≠ sh

/-- An active entry that passes every check of the active loop: the
script validates structurally, shares the deposit's spend-secret hash,
and its `rawtx` is a ledger send of `asset` from the deposit address
`addrD` to the commit script's address. -/
def ActiveOk (lib : ScriptLib) (d : Dispatcher)
    (asset netcode h addrD : String) (a : ActiveCommit) : Prop :=
  lib.validateCommitScript a.script = Except.ok () ∧
  lib.getCommitSpendSecretHash a.script = Except.ok h ∧
  ∃ ca info, lib.scriptAddress a.script netcode = Except.ok ca ∧
    d.getTxInfo a.rawtx = Except.ok info ∧ info.data ≠ "" ∧
    d.unpack info.data = Except.ok (0, asset) ∧
    info.src = addrD ∧ info.dest = ca

/-- An active entry that passes every check of the active loop except
that its `rawtx` pays a destination other than the commit script's
address. -/
def ActiveDestBad (lib : ScriptLib) (d : Dispatcher)
    (asset netcode h addrD : String) (a : ActiveCommit) : Prop :=
  lib.validateCommitScript a.script = Except.ok () ∧
  lib.getCommitSpendSecretHash a.script = Except.ok h ∧
  ∃ ca info, lib.scriptAddress a.script netcode = Except.ok ca ∧
    d.getTxInfo a.rawtx = Except.ok info ∧ info.data ≠ "" ∧
    d.unpack info.data = Except.ok (0, asset) ∧
    info.src = addrD ∧ info.dest ≠ ca

/-- A concrete instance of the script-template capability, used to
evaluate the validator on concrete inputs: `"d0"` is the valid deposit
script with spend-secret hash `"ab"`, `"c0"` and `"c1"` are the valid
commit scripts sharing it, `"c1"` embeds revocation hash `"cd"`, the
secret `"ee"` hashes to `"cd"`, and addresses are `"ad" ++ script`. -/
def testLib : ScriptLib where
  validateDepositScript := fun s =>
    if s = "d0" then Except.ok () else Except.error (Err.invalidScript s)
  validateCommitScript := fun s =>
    if s = "c0" || s = "c1" then Except.ok () else Except.error (Err.invalidScript s)
  getDepositSpendSecretHash := fun s =>
    if s = "d0" then Except.ok "ab" else Except.error (Err.invalidScript s)
  getCommitSpendSecretHash := fun s =>
    if s = "c0" || s = "c1" then Except.ok "ab" else Except.error (Err.invalidScript s)
  getCommitRevokeSecretHash := fun s =>
    if s = "c1" then Except.ok "cd" else Except.error (Err.invalidScript s)
  hash160hex := fun sec => if sec = "ee" then Except.ok "cd" else Except.ok "00"
  scriptAddress := fun s _n => Except.ok ("ad" ++ s)

/-- A concrete ledger dispatcher: asset `"XCP"` exists; tx `"ff"` is a
send with payload `"dd"` from `"add0"` (the deposit address) to
`"adc0"` (the commit address of `"c0"`); tx `"fe"` is the same send but
paying third-party address `"bad0"`; tx `"00"` carries no payload. -/
def testDisp : Dispatcher where
  getAssets := ["XCP"]
  getTxInfo := fun tx =>
    if tx = "ff" then
      Except.ok { src := "add0", dest := "adc0", btc := 1, fee := 2, data := "dd" }
    else if tx = "fe" then
      Except.ok { src := "add0", dest := "bad0", btc := 1, fee := 2, data := "dd" }
    else if tx = "00" then
      Except.ok { src := "a", dest := "b", btc := 1, fee := 2, data := "" }
    else Except.error (Err.lookupFailure tx)
  unpack := fun dat =>
    if dat = "dd" then Except.ok (0, "XCP") else Except.error (Err.lookupFailure dat)
  badSignatureCount := fun _ => Except.ok 0

/-- A fully consistent concrete channel state over `testLib` and
`testDisp`. -/
def goodState : StateData where
  asset := "XCP"
  deposit_script := "d0"
  commits_requested := ["aa"]
  commits_active := [{ rawtx := "ff", script := "c0" }]
  commits_revoked := [{ script := "c1", revoke_secret := "ee" }]

/-- A state with the same commit script `"c0"` once in `commits_active`
and once in `commits_revoked`. -/
def dupState : StateData where
  asset := "XCP"
  deposit_script := "d0"
  commits_requested := []
  commits_active := [{ rawtx := "ff", script := "c0" }]
  commits_revoked := [{ script := "c0", revoke_secret := "ee" }]

/-- A state whose revoked entry's secret `"aa"` hashes to `"00"`,
different from the embedded revocation hash `"cd"` of script `"c1"`. -/
def badRevState : StateData where
  asset := "XCP"
  deposit_script := "d0"
  commits_requested := []
  commits_active := []
  commits_revoked := [{ script := "c1", revoke_secret := "aa" }]

/-- A state whose active entry's `rawtx` (`"fe"`) pays `"bad0"` instead
of the commit address `"adc0"`. -/
def badDestState : StateData where
  asset := "XCP"
  deposit_script := "d0"
  commits_requested := []
  commits_active := [{ rawtx := "fe", script := "c0" }]
  commits_revoked := []

/-- Rewrites `is_state` as the sequential composition of its six
checks, with the deposit-script block packaged as `depositCheck`. -/
theorem is_state_eq (lib : ScriptLib) (d : Dispatcher) (s : StateData)
    (netcode : String) :
    is_state lib d s netcode =
      (checkStateSchema s).bind fun _ =>
      (if (combinedScripts s).Nodup then Except.ok ()
       else Except.error Err.assertDuplicateScript).bind fun _ =>
      (is_asset d s.asset).bind fun _ =>
      (depositCheck lib s.deposit_script netcode).bind fun deposit_spend_hash =>
      (checkRevokedList lib deposit_spend_hash s.commits_revoked).bind fun _ =>
      checkActiveList lib d s.asset s.deposit_script netcode deposit_spend_hash
        s.commits_active := by
  unfold is_state depositCheck
  cases lib.scriptAddress s.deposit_script netcode <;>
    cases lib.getDepositSpendSecretHash s.deposit_script <;>
      cases lib.validateDepositScript s.deposit_script <;>
        simp [Except.bind]

/-- The revoked loop succeeds when every entry satisfies all its
checks. -/
theorem checkRevokedList_ok (lib : ScriptLib) (h : String)
    (l : List RevokedCommit) (hl : ∀ r ∈ l, RevokedOk lib h r) :
    checkRevokedList lib h l = Except.ok () := by
  induction l with
  | nil => rfl
  | cons r rest ih =>
    obtain ⟨h1, h2, rh, h3, h4⟩ := hl r (List.mem_cons_self r rest)
    simp [checkRevokedList, h1, h2, h3, h4, Except.bind]
    exact ih (fun x hx => hl x (List.mem_cons_of_mem _ hx))

/-- The per-entry tx cross-check succeeds for a fully consistent active
entry. -/
theorem is_commit_rawtx_of_ok (lib : ScriptLib) (d : Dispatcher)
    (asset deposit_script_hex netcode h addrD : String) (a : ActiveCommit)
    (haddr : lib.scriptAddress deposit_script_hex netcode = Except.ok addrD)
    (ha : ActiveOk lib d asset netcode h addrD a) :
    is_commit_rawtx lib d a.rawtx asset deposit_script_hex a.script netcode false =
      Except.ok () := by
  obtain ⟨h1, h2, ca, info, h3, h4, h5, h6, h7, h8⟩ := ha
  simp [is_commit_rawtx, is_send_tx, h3, h4, h5, h6, h7, h8, haddr, Except.bind]

/-- The active loop succeeds when every entry satisfies all its
checks. -/
theorem checkActiveList_ok (lib : ScriptLib) (d : Dispatcher)
    (asset deposit_script_hex netcode h addrD : String) (l : List ActiveCommit)
    (haddr : lib.scriptAddress deposit_script_hex netcode = Except.ok addrD)
    (hl : ∀ a ∈ l, ActiveOk lib d asset netcode h addrD a) :
    checkActiveList lib d asset deposit_script_hex netcode h l = Except.ok () := by
  induction l with
  | nil => rfl
  | cons a rest ih =>
    obtain ⟨h1, h2, rest'⟩ := hl a (List.mem_cons_self a rest)
    have hc := is_commit_rawtx_of_ok lib d asset deposit_script_hex netcode h addrD a
      haddr ⟨h1, h2, rest'⟩
    simp [checkActiveList, h1, h2, hc, Except.bind]
    exact ih (fun x hx => hl x (List.mem_cons_of_mem _ hx))

/-- The revoked loop hits the revocation-hash assertion when every
entry reaches that comparison and some entry fails it. -/
theorem checkRevokedList_mismatch (lib : ScriptLib) (h : String)
    (l : List RevokedCommit)
    (hall : ∀ r ∈ l, RevokedChecked lib h r)
    (hbad : ∃ r ∈ l, RevokedBad lib r) :
    checkRevokedList lib h l = Except.error Err.assertRevokeHashMismatch := by
  induction l with
  | nil => simp at hbad
  | cons r rest ih =>
    obtain ⟨h1, h2, rh, sh, h3, h4⟩ := hall r (List.mem_cons_self r rest)
    by_cases heq : rh = sh
    · subst heq
      simp [checkRevokedList, h1, h2, h3, h4, Except.bind]
      apply ih (fun x hx => hall x (List.mem_cons_of_mem _ hx))
      obtain ⟨r0, hr0mem, rh0, sh0, g3, g4, gneq⟩ := hbad
      rcases List.mem_cons.mp hr0mem with hre | hmem
      · subst hre
        rw [h3] at g3
        rw [h4] at g4
        injection g3 with e3
        injection g4 with e4
        exact absurd (e3.symm.trans e4) gneq
      · exact ⟨r0, hmem, rh0, sh0, g3, g4, gneq⟩
    · simp [checkRevokedList, h1, h2, h3, h4, Except.bind, heq]

/-- No active entry is simultaneously fully consistent and
destination-mismatched: the collaborator functions are deterministic. -/
theorem not_activeOk_and_destBad (lib : ScriptLib) (d : Dispatcher)
    (asset netcode h addrD : String) (a : ActiveCommit)
    (hok : ActiveOk lib d asset netcode h addrD a)
    (hbad : ActiveDestBad lib d asset netcode h addrD a) : False := by
  obtain ⟨-, -, ca, info, h3, h4, -, -, -, h8⟩ := hok
  obtain ⟨-, -, ca0, info0, g3, g4, -, -, -, g8⟩ := hbad
  rw [h3] at g3
  rw [h4] at g4
  injection g3 with e3
  injection g4 with e4
  subst e3
  subst e4
  exact g8 h8

/-- The per-entry tx cross-check of a destination-mismatched entry
fails with `DestinationMissmatch`, carrying the expected commit address
and the found destination. -/
theorem is_commit_rawtx_destBad (lib : ScriptLib) (d : Dispatcher)
    (asset deposit_script_hex netcode h addrD : String) (a : ActiveCommit)
    (haddr : lib.scriptAddress deposit_script_hex netcode = Except.ok addrD)
    (hb : ActiveDestBad lib d asset netcode h addrD a) :
    ∃ exp fnd, exp ≠ fnd ∧
      is_commit_rawtx lib d a.rawtx asset deposit_script_hex a.script netcode false =
        Except.error (Err.destinationMissmatch exp fnd) := by
  obtain ⟨h1, h2, ca, info, h3, h4, h5, h6, h7, h8⟩ := hb
  have h9 : ¬ (ca = info.dest) := fun hc => h8 hc.symm
  refine ⟨ca, info.dest, h9, ?_⟩
  simp [is_commit_rawtx, is_send_tx, h3, h4, h5, h6, h7, haddr, Except.bind, h9]

/-- The active loop fails with `DestinationMissmatch` when every entry
is either fully consistent or destination-mismatched and at least one
is destination-mismatched. -/
theorem checkActiveList_destMismatch (lib : ScriptLib) (d : Dispatcher)
    (asset deposit_script_hex netcode h addrD : String) (l : List ActiveCommit)
    (haddr : lib.scriptAddress deposit_script_hex netcode = Except.ok addrD)
    (hall : ∀ a ∈ l, ActiveOk lib d asset netcode h addrD a ∨
      ActiveDestBad lib d asset netcode h addrD a)
    (hbad : ∃ a ∈ l, ActiveDestBad lib d asset netcode h addrD a) :
    ∃ exp fnd, exp ≠ fnd ∧
      checkActiveList lib d asset deposit_script_hex netcode h l =
        Except.error (Err.destinationMissmatch exp fnd) := by
  induction l with
  | nil => simp at hbad
  | cons a rest ih =>
    rcases hall a (List.mem_cons_self a rest) with hok | hb
    · obtain ⟨h1, h2, rest'⟩ := hok
      have hc := is_commit_rawtx_of_ok lib d asset deposit_script_hex netcode h addrD a
        haddr ⟨h1, h2, rest'⟩
      have hrec : ∃ a0 ∈ rest, ActiveDestBad lib d asset netcode h addrD a0 := by
        obtain ⟨a0, ha0mem, hb0⟩ := hbad
        rcases List.mem_cons.mp ha0mem with hre | hmem
        · subst hre
          exact absurd (not_activeOk_and_destBad lib d asset netcode h addrD a0
            ⟨h1, h2, rest'⟩ hb0) (fun hf => hf)
        · exact ⟨a0, hmem, hb0⟩
      obtain ⟨exp, fnd, hne, heq⟩ :=
        ih (fun x hx => hall x (List.mem_cons_of_mem _ hx)) hrec
      refine ⟨exp, fnd, hne, ?_⟩
      simp [checkActiveList, h1, h2, hc, Except.bind, heq]
    · obtain ⟨exp, fnd, hne, heq⟩ := is_commit_rawtx_destBad lib d asset
        deposit_script_hex netcode h addrD a haddr hb
      obtain ⟨h1, h2, -⟩ := hb
      refine ⟨exp, fnd, hne, ?_⟩
      simp [checkActiveList, h1, h2, Except.bind, heq]

/-- With signature verification off, `is_send_tx` never consults the
signature-checking capability. -/
theorem is_send_tx_sig_irrel (d : Dispatcher) (f : String → Except Err Nat)
    (rawtx : String) (ea es ed : Option String) :
    is_send_tx { d with badSignatureCount := f } rawtx ea es ed false =
      is_send_tx d rawtx ea es ed false := by
  cases d
  rfl

/-- With signature verification off, `is_commit_rawtx` never consults
the signature-checking capability. -/
theorem is_commit_rawtx_sig_irrel (lib : ScriptLib) (d : Dispatcher)
    (f : String → Except Err Nat) (rawtx asset ds cs netcode : String) :
    is_commit_rawtx lib { d with badSignatureCount := f } rawtx asset ds cs
        netcode false =
      is_commit_rawtx lib d rawtx asset ds cs netcode false := by
  cases d
  rfl

/-- The active loop never consults the signature-checking
capability. -/
theorem checkActiveList_sig_irrel (lib : ScriptLib) (d : Dispatcher)
    (f : String → Except Err Nat)
    (asset deposit_script_hex netcode h : String) (l : List ActiveCommit) :
    checkActiveList lib { d with badSignatureCount := f } asset
        deposit_script_hex netcode h l =
      checkActiveList lib d asset deposit_script_hex netcode h l := by
  induction l with
  | nil => rfl
  | cons a rest ih =>
    simp only [checkActiveList, is_commit_rawtx_sig_irrel, ih]

/-- C1: for every channel state built from a mutually consistent
deposit script (address derivable, spend-secret hash readable,
structurally valid), commit scripts sharing the deposit's spend-secret
hash, revoked entries whose revoke secret hashes to the script's
embedded revocation hash, active entries whose `rawtx` is a ledger send
of the state's asset from the deposit address to the commit script's
address, with well-formed hex fields, distinct commit scripts and a
registered asset, `is_state` completes without any error. -/
theorem claim_C1_consistent_state_validates (lib : ScriptLib) (d : Dispatcher)
    (s : StateData) (netcode addrD dsh : String)
    (hschema : stateMatchesSchema s = true)
    (hnodup : (combinedScripts s).Nodup)
    (hasset : s.asset ∈ d.getAssets)
    (haddr : lib.scriptAddress s.deposit_script netcode = Except.ok addrD)
    (hdsh : lib.getDepositSpendSecretHash s.deposit_script = Except.ok dsh)
    (hdval : lib.validateDepositScript s.deposit_script = Except.ok ())
    (hrev : ∀ r ∈ s.commits_revoked, RevokedOk lib dsh r)
    (hact : ∀ a ∈ s.commits_active,
      ActiveOk lib d s.asset netcode dsh addrD a) :
    is_state lib d s netcode = Except.ok () := by
  rw [is_state_eq]
  simp [checkStateSchema, hschema, hnodup, is_asset, hasset, depositCheck,
    haddr, hdsh, hdval, Except.bind,
    checkRevokedList_ok lib dsh s.commits_revoked hrev,
    checkActiveList_ok lib d s.asset s.deposit_script netcode dsh addrD
      s.commits_active haddr hact]

/-- Witness for C1: the concrete consistent state validates. -/
theorem claim_C1_witness : is_state testLib testDisp goodState "XTN" = Except.ok () :=
  claim_C1_consistent_state_validates testLib testDisp goodState "XTN" "add0" "ab"
    (by decide) (by decide) (by decide) rfl rfl rfl
    (by
      intro r hr
      have hre : r = { script := "c1", revoke_secret := "ee" } := by
        simpa [goodState] using hr
      subst hre
      exact ⟨rfl, rfl, "cd", rfl, rfl⟩)
    (by
      intro a ha
      have hae : a = { rawtx := "ff", script := "c0" } := by
        simpa [goodState] using ha
      subst hae
      exact ⟨rfl, rfl, "adc0",
        { src := "add0", dest := "adc0", btc := 1, fee := 2, data := "dd" },
        rfl, rfl, by decide, rfl, rfl, rfl⟩)

/-- C2: for every schema-conforming channel state in which the same
script appears in more than one entry across `commits_active` and
`commits_revoked`, `is_state` fails with the duplicate-script error,
regardless of the collaborators and hence regardless of whether any
other check would pass. -/
theorem claim_C2_duplicate_script_fails (lib : ScriptLib) (d : Dispatcher)
    (s : StateData) (netcode : String)
    (hschema : stateMatchesSchema s = true)
    (hdup : ¬ (combinedScripts s).Nodup) :
    is_state lib d s netcode = Except.error Err.assertDuplicateScript := by
  rw [is_state_eq]
  simp [checkStateSchema, hschema, hdup, Except.bind]

/-- Witness for C2: script `"c0"` once in each list. -/
theorem claim_C2_witness : is_state testLib testDisp dupState "XTN" =
    Except.error Err.assertDuplicateScript :=
  claim_C2_duplicate_script_fails testLib testDisp dupState "XTN"
    (by decide) (by decide)

/-- C3: for every channel state (passing the earlier checks, with every
revoked entry reaching the revocation-hash comparison) that contains a
`commits_revoked` entry whose `revoke_secret` hashes to a value
different from the script's embedded revocation hash, `is_state` fails
with the revocation-mismatch error. -/
theorem claim_C3_revocation_mismatch_fails (lib : ScriptLib) (d : Dispatcher)
    (s : StateData) (netcode dsh : String)
    (hschema : stateMatchesSchema s = true)
    (hnodup : (combinedScripts s).Nodup)
    (hasset : s.asset ∈ d.getAssets)
    (hdep : depositCheck lib s.deposit_script netcode = Except.ok dsh)
    (hall : ∀ r ∈ s.commits_revoked, RevokedChecked lib dsh r)
    (hbad : ∃ r ∈ s.commits_revoked, RevokedBad lib r) :
    is_state lib d s netcode = Except.error Err.assertRevokeHashMismatch := by
  rw [is_state_eq]
  simp [checkStateSchema, hschema, hnodup, is_asset, hasset, hdep, Except.bind,
    checkRevokedList_mismatch lib dsh s.commits_revoked hall hbad]

/-- Witness for C3: secret `"aa"` hashes to `"00"`, but script `"c1"`
embeds `"cd"`. -/
theorem claim_C3_witness : is_state testLib testDisp badRevState "XTN" =
    Except.error Err.assertRevokeHashMismatch :=
  claim_C3_revocation_mismatch_fails testLib testDisp badRevState "XTN" "ab"
    (by decide) (by decide) (by decide) rfl
    (by
      intro r hr
      have hre : r = { script := "c1", revoke_secret := "aa" } := by
        simpa [badRevState] using hr
      subst hre
      exact ⟨rfl, rfl, "cd", "00", rfl, rfl⟩)
    ⟨{ script := "c1", revoke_secret := "aa" }, by decide, "cd", "00", rfl, rfl,
      by decide⟩

/-- C4: `is_commit_rawtx` delegates to `is_send_tx` with expected
source the deposit script's address and expected destination the
commit script's address under the given netcode; consequently an
otherwise-valid state whose active commit `rawtx` pays some other
destination makes `is_state` fail with a destination-mismatch error. -/
theorem claim_C4_destination_mismatch :
    (∀ (lib : ScriptLib) (d : Dispatcher) (rawtx asset ds cs netcode : String)
        (vs : Bool) (ca da : String),
        lib.scriptAddress cs netcode = Except.ok ca →
        lib.scriptAddress ds netcode = Except.ok da →
        is_commit_rawtx lib d rawtx asset ds cs netcode vs =
          (is_send_tx d rawtx (some asset) (some da) (some ca) vs).bind fun _ =>
            Except.ok ()) ∧
    (∀ (lib : ScriptLib) (d : Dispatcher) (s : StateData)
        (netcode dsh addrD : String),
        stateMatchesSchema s = true →
        (combinedScripts s).Nodup →
        s.asset ∈ d.getAssets →
        lib.scriptAddress s.deposit_script netcode = Except.ok addrD →
        depositCheck lib s.deposit_script netcode = Except.ok dsh →
        (∀ r ∈ s.commits_revoked, RevokedOk lib dsh r) →
        (∀ a ∈ s.commits_active, ActiveOk lib d s.asset netcode dsh addrD a ∨
          ActiveDestBad lib d s.asset netcode dsh addrD a) →
        (∃ a ∈ s.commits_active, ActiveDestBad lib d s.asset netcode dsh addrD a) →
        ∃ exp fnd, exp ≠ fnd ∧
          is_state lib d s netcode =
            Except.error (Err.destinationMissmatch exp fnd)) := by
  constructor
  · intro lib d rawtx asset ds cs netcode vs ca da hca hda
    simp [is_commit_rawtx, hca, hda, Except.bind]
  · intro lib d s netcode dsh addrD hschema hnodup hasset haddr hdep hrev hall hbad
    obtain ⟨exp, fnd, hne, heq⟩ := checkActiveList_destMismatch lib d s.asset
      s.deposit_script netcode dsh addrD s.commits_active haddr hall hbad
    refine ⟨exp, fnd, hne, ?_⟩
    rw [is_state_eq]
    simp [checkStateSchema, hschema, hnodup, is_asset, hasset, hdep, Except.bind,
      checkRevokedList_ok lib dsh s.commits_revoked hrev, heq]

/-- Witness for C4: the delegation instance on tx `"ff"`, and the
concrete third-party-destination state failing. -/
theorem claim_C4_witness :
    (is_commit_rawtx testLib testDisp "ff" "XCP" "d0" "c0" "XTN" false =
      (is_send_tx testDisp "ff" (some "XCP") (some "add0") (some "adc0")
        false).bind fun _ => Except.ok ()) ∧
    (∃ exp fnd, exp ≠ fnd ∧ is_state testLib testDisp badDestState "XTN" =
      Except.error (Err.destinationMissmatch exp fnd)) :=
  ⟨claim_C4_destination_mismatch.1 testLib testDisp "ff" "XCP" "d0" "c0" "XTN"
      false "adc0" "add0" rfl rfl,
   claim_C4_destination_mismatch.2 testLib testDisp badDestState "XTN" "ab" "add0"
    (by decide) (by decide) (by decide) rfl rfl
    (by intro r hr; simp [badDestState] at hr)
    (by
      intro a ha
      have hae : a = { rawtx := "fe", script := "c0" } := by
        simpa [badDestState] using ha
      subst hae
      exact Or.inr ⟨rfl, rfl, "adc0",
        { src := "add0", dest := "bad0", btc := 1, fee := 2, data := "dd" },
        rfl, rfl, by decide, rfl, rfl, by decide⟩)
    ⟨{ rawtx := "fe", script := "c0" }, by decide,
      ⟨rfl, rfl, "adc0",
        { src := "add0", dest := "bad0", btc := 1, fee := 2, data := "dd" },
        rfl, rfl, by decide, rfl, rfl, by decide⟩⟩⟩

/-- C5: for every string `s`, `is_hex` succeeds exactly when `s`
matches `^[0-9a-f]*$` and has even length, and for every non-string
value it fails (with `InvalidString`). -/
theorem claim_C5_is_hex_iff :
    (∀ s : String, is_hex (PyVal.str s) = Except.ok () ↔
      (pyRegexHexMatch s = true ∧ s.length % 2 = 0)) ∧
    (∀ v : PyVal, (∀ s, v ≠ PyVal.str s) →
      is_hex v = Except.error Err.invalidString) := by
  constructor
  · intro s
    by_cases h : pyRegexHexMatch s = true
    · by_cases h2 : s.length % 2 = 0 <;> simp [is_hex, is_string, Except.bind, h, h2]
    · simp at h
      simp [is_hex, is_string, Except.bind, h]
  · intro v hv
    cases v with
    | str s => exact absurd rfl (hv s)
    | int n => rfl
    | boolean b => rfl
    | listV l => rfl
    | noneV => rfl

/-- Witness for C5: `"0abc"` passes, the integer `7` fails. -/
theorem claim_C5_witness : (is_hex (PyVal.str "0abc") = Except.ok ()) ∧
    (is_hex (PyVal.int 7) = Except.error Err.invalidString) :=
  ⟨(claim_C5_is_hex_iff.1 "0abc").2 (by decide),
   claim_C5_is_hex_iff.2 (PyVal.int 7) (fun s h => PyVal.noConfusion h)⟩

/-- C6: `is_state` checks schema, script uniqueness, asset existence,
the deposit-script block, the revoked entries and the active entries in
that fixed order, and the error it raises is the one of the earliest
violated check: each conclusion holds for arbitrary collaborators and
arbitrary later-checked components, so nothing past the first violation
is consulted. -/
theorem claim_C6_fail_fast_order (lib : ScriptLib) (d : Dispatcher)
    (s : StateData) (netcode : String) :
    (stateMatchesSchema s = false →
        is_state lib d s netcode = Except.error Err.schemaViolation) ∧
    (stateMatchesSchema s = true → ¬ (combinedScripts s).Nodup →
        is_state lib d s netcode = Except.error Err.assertDuplicateScript) ∧
    (stateMatchesSchema s = true → (combinedScripts s).Nodup →
        s.asset ∉ d.getAssets →
        is_state lib d s netcode = Except.error (Err.assetDoesNotExist s.asset)) ∧
    (∀ e, stateMatchesSchema s = true → (combinedScripts s).Nodup →
        s.asset ∈ d.getAssets →
        depositCheck lib s.deposit_script netcode = Except.error e →
        is_state lib d s netcode = Except.error e) ∧
    (∀ dsh e, stateMatchesSchema s = true → (combinedScripts s).Nodup →
        s.asset ∈ d.getAssets →
        depositCheck lib s.deposit_script netcode = Except.ok dsh →
        checkRevokedList lib dsh s.commits_revoked = Except.error e →
        is_state lib d s netcode = Except.error e) ∧
    (∀ dsh e, stateMatchesSchema s = true → (combinedScripts s).Nodup →
        s.asset ∈ d.getAssets →
        depositCheck lib s.deposit_script netcode = Except.ok dsh →
        checkRevokedList lib dsh s.commits_revoked = Except.ok () →
        checkActiveList lib d s.asset s.deposit_script netcode dsh
          s.commits_active = Except.error e →
        is_state lib d s netcode = Except.error e) := by
  refine ⟨?_, ?_, ?_, ?_, ?_, ?_⟩
  · intro h1
    rw [is_state_eq]
    simp [checkStateSchema, h1, Except.bind]
  · intro h1 h2
    rw [is_state_eq]
    simp [checkStateSchema, h1, h2, Except.bind]
  · intro h1 h2 h3
    rw [is_state_eq]
    simp [checkStateSchema, is_asset, h1, h2, h3, Except.bind]
  · intro e h1 h2 h3 h4
    rw [is_state_eq]
    simp [checkStateSchema, is_asset, h1, h2, h3, h4, Except.bind]
  · intro dsh e h1 h2 h3 h4 h5
    rw [is_state_eq]
    simp [checkStateSchema, is_asset, h1, h2, h3, h4, h5, Except.bind]
  · intro dsh e h1 h2 h3 h4 h5 h6
    rw [is_state_eq]
    simp [checkStateSchema, is_asset, h1, h2, h3, h4, h5, h6, Except.bind]

/-- Witness for C6: one concrete state per stage, each failing with the
error of exactly that stage. -/
theorem claim_C6_witness :
    (is_state testLib testDisp { goodState with deposit_script := "zz" } "XTN" =
      Except.error Err.schemaViolation) ∧
    (is_state testLib testDisp dupState "XTN" =
      Except.error Err.assertDuplicateScript) ∧
    (is_state testLib testDisp { goodState with asset := "BTC" } "XTN" =
      Except.error (Err.assetDoesNotExist "BTC")) ∧
    (is_state testLib testDisp { goodState with deposit_script := "dd" } "XTN" =
      Except.error (Err.invalidScript "dd")) ∧
    (is_state testLib testDisp badRevState "XTN" =
      Except.error Err.assertRevokeHashMismatch) ∧
    (∃ exp fnd, is_state testLib testDisp badDestState "XTN" =
      Except.error (Err.destinationMissmatch exp fnd)) :=
  ⟨(claim_C6_fail_fast_order testLib testDisp
      { goodState with deposit_script := "zz" } "XTN").1 (by decide),
   (claim_C6_fail_fast_order testLib testDisp dupState "XTN").2.1
     (by decide) (by decide),
   (claim_C6_fail_fast_order testLib testDisp
      { goodState with asset := "BTC" } "XTN").2.2.1 (by decide)
     (by decide) (by decide),
   (claim_C6_fail_fast_order testLib testDisp
      { goodState with deposit_script := "dd" } "XTN").2.2.2.1
     (Err.invalidScript "dd") (by decide) (by decide) (by decide) rfl,
   (claim_C6_fail_fast_order testLib testDisp badRevState "XTN").2.2.2.2.1 "ab"
     Err.assertRevokeHashMismatch (by decide) (by decide) (by decide) rfl rfl,
   ⟨"adc0", "bad0", (claim_C6_fail_fast_order testLib testDisp badDestState
      "XTN").2.2.2.2.2 "ab" (Err.destinationMissmatch "adc0" "bad0")
     (by decide) (by decide) (by decide) rfl rfl rfl⟩⟩

/-- C7: for every transaction whose ledger-reported payload is empty,
`is_send_tx` fails with `ValueError("No data for given transaction!")`
regardless of the expected source, destination, asset and the
signature flag: the failure precedes every comparison and the
signature check. -/
theorem claim_C7_missing_payload (d : Dispatcher) (rawtx : String)
    (ea es ed : Option String) (vs : Bool) (info : TxInfo)
    (hinfo : d.getTxInfo rawtx = Except.ok info) (hdata : info.data = "") :
    is_send_tx d rawtx ea es ed vs =
      Except.error (Err.valueErr "No data for given transaction!") := by
  simp [is_send_tx, hinfo, Except.bind, hdata]

/-- Witness for C7: tx `"00"` carries no payload. -/
theorem claim_C7_witness : is_send_tx testDisp "00" none none none false =
    Except.error (Err.valueErr "No data for given transaction!") :=
  claim_C7_missing_payload testDisp "00" none none none false
    { src := "a", dest := "b", btc := 1, fee := 2, data := "" } rfl rfl

/-- C8: whenever `is_send_tx` succeeds, the returned record carries the
transaction's source, destination, amount, fee and raw payload exactly
as the ledger reported them, and the decoded message type and asset
exactly as unpacked. -/
theorem claim_C8_normalized_record (d : Dispatcher) (rawtx : String)
    (ea es ed : Option String) (vs : Bool) (r : SendTxRecord)
    (h : is_send_tx d rawtx ea es ed vs = Except.ok r) :
    ∃ info mu, d.getTxInfo rawtx = Except.ok info ∧
      d.unpack info.data = Except.ok mu ∧
      r.src = info.src ∧ r.dest = info.dest ∧ r.btc = info.btc ∧ r.fee = info.fee ∧
      r.data = info.data ∧ r.message_type_id = mu.1 ∧ r.unpacked_asset = mu.2 := by
  unfold is_send_tx at h
  cases heq : d.getTxInfo rawtx with
  | error e => rw [heq] at h; simp [Except.bind] at h
  | ok info =>
    rw [heq] at h
    simp only [Except.bind] at h
    refine ⟨info, ?_⟩
    split at h
    · simp at h
    · cases hu : d.unpack info.data with
      | error e => rw [hu] at h; simp [Except.bind] at h
      | ok mu =>
        rw [hu] at h
        simp only [Except.bind] at h
        refine ⟨mu, rfl, rfl, ?_⟩
        split at h
        · simp at h
        · split at h
          · cases h
          · split at h
            · cases h
            · split at h
              · cases h
              · split at h
                · cases h
                · cases h
                  simp

/-- Witness for C8: the concrete send tx `"ff"` yields the matching
record. -/
theorem claim_C8_witness : ∃ info mu,
    testDisp.getTxInfo "ff" = Except.ok info ∧
    testDisp.unpack info.data = Except.ok mu ∧
    ({ src := "add0", dest := "adc0", btc := 1, fee := 2, data := "dd",
       message_type_id := 0, unpacked_asset := "XCP" } : SendTxRecord).src = info.src ∧
    ({ src := "add0", dest := "adc0", btc := 1, fee := 2, data := "dd",
       message_type_id := 0, unpacked_asset := "XCP" } : SendTxRecord).dest = info.dest ∧
    ({ src := "add0", dest := "adc0", btc := 1, fee := 2, data := "dd",
       message_type_id := 0, unpacked_asset := "XCP" } : SendTxRecord).btc = info.btc ∧
    ({ src := "add0", dest := "adc0", btc := 1, fee := 2, data := "dd",
       message_type_id := 0, unpacked_asset := "XCP" } : SendTxRecord).fee = info.fee ∧
    ({ src := "add0", dest := "adc0", btc := 1, fee := 2, data := "dd",
       message_type_id := 0, unpacked_asset := "XCP" } : SendTxRecord).data = info.data ∧
    ({ src := "add0", dest := "adc0", btc := 1, fee := 2, data := "dd",
       message_type_id := 0, unpacked_asset := "XCP" } : SendTxRecord).message_type_id = mu.1 ∧
    ({ src := "add0", dest := "adc0", btc := 1, fee := 2, data := "dd",
       message_type_id := 0, unpacked_asset := "XCP" } : SendTxRecord).unpacked_asset = mu.2 :=
  claim_C8_normalized_record testDisp "ff" none none none false
    { src := "add0", dest := "adc0", btc := 1, fee := 2, data := "dd",
      message_type_id := 0, unpacked_asset := "XCP" } rfl

/-- C9: `is_state` never inspects `commits_requested` beyond the
schema's hex pattern: replacing it in a validating state by any list of
lowercase even-length hex strings leaves `is_state` succeeding. -/
theorem claim_C9_commits_requested_opaque (lib : ScriptLib) (d : Dispatcher)
    (s : StateData) (netcode : String) (l : List String)
    (hok : is_state lib d s netcode = Except.ok ())
    (hl : ∀ x ∈ l, pyRegexHexMatch x = true ∧ x.length % 2 = 0) :
    is_state lib d { s with commits_requested := l } netcode = Except.ok () := by
  cases s with
  | mk asset ds cr ca cv =>
    have hschema : stateMatchesSchema ⟨asset, ds, cr, ca, cv⟩ = true := by
      by_contra hns
      rw [Bool.not_eq_true] at hns
      rw [is_state_eq] at hok
      simp [checkStateSchema, hns, Except.bind] at hok
    have h2 : stateMatchesSchema ⟨asset, ds, l, ca, cv⟩ = true := by
      simp only [stateMatchesSchema, Bool.and_eq_true, List.all_eq_true] at hschema ⊢
      exact ⟨⟨⟨hschema.1.1.1, fun x hx => (hl x hx).1⟩, hschema.1.2⟩, hschema.2⟩
    rw [is_state_eq] at hok ⊢
    simp only [checkStateSchema] at hok ⊢
    rw [hschema] at hok
    rw [h2]
    exact hok

/-- Witness for C9: replacing the requested list of the concrete valid
state by `["abcd", "00"]` (not commit scripts) still validates. -/
theorem claim_C9_witness : is_state testLib testDisp
    { goodState with commits_requested := ["abcd", "00"] } "XTN" = Except.ok () :=
  claim_C9_commits_requested_opaque testLib testDisp goodState "XTN"
    ["abcd", "00"] rfl (by decide)

/-- C10: `is_state` performs no signature verification: its result is
invariant under arbitrary replacement of the signature-checking
capability (because `is_commit_rawtx` is invoked with the
`validate_signature` flag at its default `false`), and in particular a
concrete state whose active `rawtx` the dispatcher reports as carrying
a bad signature still validates. -/
theorem claim_C10_no_signature_verification :
    (∀ (lib : ScriptLib) (d : Dispatcher) (f : String → Except Err Nat)
        (s : StateData) (netcode : String),
        is_state lib { d with badSignatureCount := f } s netcode =
          is_state lib d s netcode) ∧
    is_state testLib
      { testDisp with badSignatureCount := fun _ => Except.ok 1 }
      goodState "XTN" = Except.ok () := by
  constructor
  · intro lib d f s netcode
    rw [is_state_eq, is_state_eq]
    have hassets : Dispatcher.getAssets { d with badSignatureCount := f } =
        d.getAssets := by cases d; rfl
    simp only [is_asset, hassets, checkActiveList_sig_irrel]
  · rfl

end Micropayments
